import Mathlib

/-!
Verification of the plant-record derived-value engine.

The repository has two backend variants of the same engine:

* the Django variant (`backend/plant_data/models.py`), whose
  `PlantRecord.calculate_derived_values` resolves five named coefficients
  (with hard-coded fallbacks when a `FormulaVariable` row is absent) and
  computes eight derived fields in a fixed order using `Decimal` arithmetic;
* the FastAPI variant (`fastapi_backend/app/models/plant_data.py`), whose
  `PlantRecord.calculate_derived_values` takes a coefficient dictionary,
  guards every step on operand presence, and uses a different formula set.

Numbers are modelled as exact rationals (`ℚ`); Python `Decimal` arithmetic on
the inputs involved is exact except for division, whose 28-significant-digit
rounding never affects the 2-decimal-place stored values checked below.
A Python exception escaping the calculator is modelled as `none`.
-/

/-- A coefficient snapshot: the `FormulaVariable` rows visible to one
calculation, as a name → value association list. -/
abbrev Snapshot := List (String × ℚ)

/-- Coefficient resolution: the value stored under `name`, or `fallback` when
no row with that name exists.  This is the Django variant's
`try: ... objects.get(name=...).value except DoesNotExist: fallback` pattern
and the FastAPI variant's `variables.get(name, fallback)`. -/
def getCoeff (snap : Snapshot) (name : String) (fallback : ℚ) : ℚ :=
  (snap.lookup name).getD fallback

/-- The six raw numeric inputs of a Django `PlantRecord`
(`backend/plant_data/models.py` lines 37-42); all are non-nullable. -/
structure RawInputs where
  rate : ℚ
  mv : ℚ
  oil : ℚ
  fiber : ℚ
  starch : ℚ
  maize_rate : ℚ
deriving DecidableEq, Repr

/-- The eight derived fields of a Django `PlantRecord`
(`backend/plant_data/models.py` lines 45-52). -/
structure Derived where
  dm : ℚ
  rate_on_dm : ℚ
  oil_value : ℚ
  net_wo_oil_fiber : ℚ
  starch_per_point : ℚ
  starch_value : ℚ
  grain : ℚ
  doc : ℚ
deriving DecidableEq, Repr

/-- Django `PlantRecord.calculate_derived_values`
(`backend/plant_data/models.py` lines 75-125): resolve the five coefficients
(falling back to `100`, `60`, `100`, `64`, `0.70` when the row is absent),
then compute the eight fields in source order.  `Decimal` division by zero
raises in Python and nothing in the repository catches it, so the two
divisions are guarded here by `none` results: `rate / dm` when `dm = 0`
(line 107) and `maize_rate / starch_per_point_divisor` when that coefficient
is `0` (line 116).  On every other input all eight assignments complete. -/
def calculate_derived_values (i : RawInputs) (snap : Snapshot) : Option Derived :=
  let dm_factor := getCoeff snap "dm_factor" 100
  let oil_value_factor := getCoeff snap "oil_value_factor" 60
  let net_factor := getCoeff snap "net_factor" 100
  let starch_per_point_divisor := getCoeff snap "starch_per_point_divisor" 64
  let grain_factor := getCoeff snap "grain_factor" (7/10)
  let dm := dm_factor - i.mv
  if dm = 0 then none
  else if starch_per_point_divisor = 0 then none
  else
    let rate_on_dm := i.rate / dm * 100
    let oil_value := oil_value_factor * i.oil
    let net_wo_oil_fiber := net_factor - i.oil - i.fiber
    let starch_per_point := i.maize_rate / starch_per_point_divisor
    let starch_value := i.starch * starch_per_point
    let grain := i.starch * grain_factor
    let doc := i.starch - grain
    some ⟨dm, rate_on_dm, oil_value, net_wo_oil_fiber, starch_per_point,
          starch_value, grain, doc⟩

/-- The spec's fixed eight-step pipeline, written from the spec's own words
(§4.2: the fallback table and the numbered computation order), to be compared
with `calculate_derived_values`:
`dm = dm_factor - mv`, `rate_on_dm = (rate / dm) * 100`,
`oil_value = oil_value_factor * oil`,
`net_wo_oil_fiber = net_factor - oil - fiber`,
`starch_per_point = maize_rate / starch_per_point_divisor`,
`starch_value = starch * starch_per_point`,
`grain = starch * grain_factor`, `doc = starch - grain`. -/
def spec_pipeline (i : RawInputs) (snap : Snapshot) : Derived :=
  let dm_factor := getCoeff snap "dm_factor" 100
  let oil_value_factor := getCoeff snap "oil_value_factor" 60
  let net_factor := getCoeff snap "net_factor" 100
  let starch_per_point_divisor := getCoeff snap "starch_per_point_divisor" 64
  let grain_factor := getCoeff snap "grain_factor" (7/10)
  let dm := dm_factor - i.mv
  let rate_on_dm := i.rate / dm * 100
  let oil_value := oil_value_factor * i.oil
  let net_wo_oil_fiber := net_factor - i.oil - i.fiber
  let starch_per_point := i.maize_rate / starch_per_point_divisor
  let starch_value := i.starch * starch_per_point
  let grain := i.starch * grain_factor
  let doc := i.starch - grain
  ⟨dm, rate_on_dm, oil_value, net_wo_oil_fiber, starch_per_point,
   starch_value, grain, doc⟩

/-- The snapshot holding exactly the five documented fallback constants. -/
def default_snapshot : Snapshot :=
  [("dm_factor", 100), ("oil_value_factor", 60), ("net_factor", 100),
   ("starch_per_point_divisor", 64), ("grain_factor", 7/10)]

/-- Rounding to 2 decimal places, the stored precision of the
`DecimalField(..., decimal_places=2)` columns. -/
def round2 (q : ℚ) : ℚ := (round (q * 100) : ℤ) / 100

/-- A FastAPI `PlantRecord` (`fastapi_backend/app/models/plant_data.py`):
all six raw inputs and all eight derived columns are nullable. -/
structure FRecord where
  rate : Option ℚ
  mv : Option ℚ
  oil : Option ℚ
  fiber : Option ℚ
  starch : Option ℚ
  maize_rate : Option ℚ
  dm : Option ℚ
  rate_on_dm : Option ℚ
  oil_value : Option ℚ
  net_wo_oil_fiber : Option ℚ
  starch_per_point : Option ℚ
  starch_value : Option ℚ
  grain : Option ℚ
  doc : Option ℚ
deriving DecidableEq, Repr

/-!
The FastAPI `PlantRecord.calculate_derived_values(self, variables)` body is a
sequence of guarded in-place assignments; each statement below is one step
function.  The Python locals (`mv_value`, `rate_value`, `oil_value_pct`,
`fiber_value`, `starch_value`) are captured from the raw columns before the
first step and no step writes a raw column, so reading the current record's
raw fields inside each step is equivalent.  Note the source fetches
`dm_factor` from the dictionary but never uses it: the DM step hard-codes
`100`.
-/

/-- `if mv_value is not None: self.dm = 100 - mv_value` (line 73-74). -/
def fa_step_dm (r : FRecord) : FRecord :=
  match r.mv with
  | some m => { r with dm := some (100 - m) }
  | none => r

/-- `if rate_value is not None and self.dm is not None and float(self.dm) > 0:
self.rate_on_dm = (rate_value * 100) / float(self.dm)` (line 77-78). -/
def fa_step_rate_on_dm (r : FRecord) : FRecord :=
  match r.rate, r.dm with
  | some rv, some d => if 0 < d then { r with rate_on_dm := some (rv * 100 / d) } else r
  | _, _ => r

/-- `if oil_value_pct is not None: self.oil_value = oil_value_pct * oil_factor`
(line 81-82). -/
def fa_step_oil_value (oil_factor : ℚ) (r : FRecord) : FRecord :=
  match r.oil with
  | some o => { r with oil_value := some (o * oil_factor) }
  | none => r

/-- `if rate_value is not None and self.oil_value is not None and fiber_value
is not None: self.net_wo_oil_fiber = rate_value - float(self.oil_value) -
(fiber_value * net_wo_factor)` (line 85-86). -/
def fa_step_net (net_wo_factor : ℚ) (r : FRecord) : FRecord :=
  match r.rate, r.oil_value, r.fiber with
  | some rv, some ov, some fv =>
      { r with net_wo_oil_fiber := some (rv - ov - fv * net_wo_factor) }
  | _, _, _ => r

/-- `if starch_value is not None and starch_value > 0: self.starch_per_point =
starch_per_point_factor / starch_value` (line 89-90); the local
`starch_value` is the raw `starch` column. -/
def fa_step_starch_per_point (starch_per_point_factor : ℚ) (r : FRecord) : FRecord :=
  match r.starch with
  | some sv => if 0 < sv then
      { r with starch_per_point := some (starch_per_point_factor / sv) } else r
  | none => r

/-- `if starch_value is not None and self.starch_per_point is not None:
self.starch_value = starch_value * float(self.starch_per_point)`
(line 93-94). -/
def fa_step_starch_value (r : FRecord) : FRecord :=
  match r.starch, r.starch_per_point with
  | some sv, some spp => { r with starch_value := some (sv * spp) }
  | _, _ => r

/-- `if self.starch_value is not None: self.grain = float(self.starch_value) *
grain_factor` (line 97-98). -/
def fa_step_grain (grain_factor : ℚ) (r : FRecord) : FRecord :=
  match r.starch_value with
  | some sv => { r with grain := some (sv * grain_factor) }
  | none => r

/-- `if self.starch_value is not None and self.oil_value is not None:
self.doc = (float(self.starch_value) + float(self.oil_value)) * doc_factor`
(line 101-102). -/
def fa_step_doc (doc_factor : ℚ) (r : FRecord) : FRecord :=
  match r.starch_value, r.oil_value with
  | some sv, some ov => { r with doc := some ((sv + ov) * doc_factor) }
  | _, _ => r

/-- FastAPI `PlantRecord.calculate_derived_values`
(`fastapi_backend/app/models/plant_data.py` lines 53-102): resolve the six
coefficients with `variables.get(name, fallback)` (fallbacks `100`, `1`, `1`,
`1`, `1`, `1`), then run the eight guarded assignments in source order.
`_dm_factor` is fetched by the source (line 65) but never used. -/
def fa_calculate_derived_values (r : FRecord) (vars : Snapshot) : FRecord :=
  let _dm_factor := getCoeff vars "dm_factor" 100
  let oil_factor := getCoeff vars "oil_factor" 1
  let net_wo_factor := getCoeff vars "net_wo_factor" 1
  let starch_per_point_factor := getCoeff vars "starch_per_point_factor" 1
  let grain_factor := getCoeff vars "grain_factor" 1
  let doc_factor := getCoeff vars "doc_factor" 1
  fa_step_doc doc_factor
    (fa_step_grain grain_factor
      (fa_step_starch_value
        (fa_step_starch_per_point starch_per_point_factor
          (fa_step_net net_wo_factor
            (fa_step_oil_value oil_factor
              (fa_step_rate_on_dm
                (fa_step_dm r)))))))

/-- A `FormulaVariable` row: `name` (unique), `value` (current), and
`default_value` (both backends carry the same three numeric columns). -/
structure FVar where
  name : String
  value : ℚ
  default_value : ℚ
deriving DecidableEq, Repr

/-- `for var in db.query(FormulaVariable).all(): formula_vars[var.name] =
var.value` — the dictionary passed into the FastAPI calculator
(`app/crud/plant_data.py` lines 37-39 and 56-58). -/
def formula_vars_dict (vars : List FVar) : Snapshot :=
  vars.map fun v => (v.name, v.value)

/-- The raw numeric part of a `PlantRecordCreate` payload. -/
structure RawCreate where
  rate : Option ℚ
  mv : Option ℚ
  oil : Option ℚ
  fiber : Option ℚ
  starch : Option ℚ
  maize_rate : Option ℚ
deriving DecidableEq, Repr

/-- The `PlantRecord(...)` constructor call in `CRUDPlantRecord.create`
(`app/crud/plant_data.py` lines 19-34): raw columns from the payload, all
derived columns NULL. -/
def mkPlantRecord (inp : RawCreate) : FRecord :=
  ⟨inp.rate, inp.mv, inp.oil, inp.fiber, inp.starch, inp.maize_rate,
   none, none, none, none, none, none, none, none⟩

/-- The persistent state seen by the FastAPI CRUD layer: the stored plant
records and the `formula_variables` table. -/
structure Db where
  records : List FRecord
  formula_variables : List FVar

/-- `CRUDPlantRecord.create` (`app/crud/plant_data.py` lines 17-47): build the
record from the payload, read the full coefficient dictionary, call
`calculate_derived_values`, then `db.add` + `db.commit` the record. -/
def crud_create (db : Db) (obj_in : RawCreate) : Db × FRecord :=
  let db_obj := fa_calculate_derived_values (mkPlantRecord obj_in)
    (formula_vars_dict db.formula_variables)
  ({ db with records := db.records ++ [db_obj] }, db_obj)

/-- `CRUDPlantRecord.update` (`app/crud/plant_data.py` lines 49-67): after
`super().update` has applied the payload to the stored record (`CRUDBase` in
`app/crud/base.py` is not part of the sources; its effect is the updated
record taken here as the argument), read the full coefficient dictionary,
recompute, and commit.  Returns the persisted record. -/
def crud_update (db : Db) (db_obj_updated : FRecord) : FRecord :=
  fa_calculate_derived_values db_obj_updated (formula_vars_dict db.formula_variables)

/-- Django `PlantRecord.save` (`backend/plant_data/models.py` lines 70-73):
`calculate_derived_values` runs first and `super().save()` persists raw and
derived columns together; an exception in the calculation aborts the save. -/
def django_save (snap : Snapshot) (i : RawInputs) : Option (RawInputs × Derived) :=
  match calculate_derived_values i snap with
  | none => none
  | some d => some (i, d)

/-- `FormulaVariable.reset_to_default` (both backends): `self.value =
self.default_value`. -/
def reset_to_default (v : FVar) : FVar := { v with value := v.default_value }

/-- Outcome of `POST /formula-variables/reset/\x7bname\x7d`. -/
inductive ResetResult where
  | notFound : ResetResult
  | typeError : ResetResult
  | ok : FVar → ResetResult
deriving DecidableEq, Repr

/-- The FastAPI `reset_variable` endpoint
(`app/api/endpoints/formula_variables.py` lines 117-135): look the variable
up by name and return 404 when absent; when present it calls
`formula_variable.reset(db, name=name)`, but `CRUDFormulaVariable.reset`
(`app/crud/plant_data.py` line 192) accepts only the keyword argument `id`,
so Python raises `TypeError` before any value changes. -/
def reset_variable (store : List FVar) (name : String) : ResetResult :=
  match store.find? (fun v => v.name == name) with
  | none => ResetResult.notFound
  | some _ => ResetResult.typeError

/-- The Django `reset` action (`backend/plant_data/views.py` lines 42-47) on a
variable that exists: `reset_to_default` then return it. -/
def django_reset (v : FVar) : FVar := reset_to_default v

/-- The store produced by `create_formula_variables.py` (lines 50-71) on a
fresh database: the six seeded `FormulaVariable` rows, `(name, value,
default_value)` exactly as in the script.  `init_database.py` (lines 78-123)
seeds the identical set. -/
def create_formula_variables : List FVar :=
  [⟨"dm_factor", 100, 100⟩, ⟨"oil_factor", 5/2, 5/2⟩, ⟨"net_wo_factor", 3/2, 3/2⟩,
   ⟨"starch_per_point_factor", 100, 100⟩, ⟨"grain_factor", 6/5, 6/5⟩,
   ⟨"doc_factor", 21/20, 21/20⟩]

/-- The store produced by `app/db/init_db.py` `init_db` (lines 8-44) on a
fresh database.  No module in the repository calls `init_db`; application
startup (`app/main.py`) only creates tables. -/
def init_db_default_variables : List FVar :=
  [⟨"dm_factor", 100, 100⟩, ⟨"oil_value_factor", 60, 60⟩, ⟨"net_factor", 100, 100⟩,
   ⟨"starch_per_point_divisor", 64, 64⟩, ⟨"grain_factor", 7/10, 7/10⟩]

/-- Lookup of a `FormulaVariable` row by its unique name
(`CRUDFormulaVariable.get_by_name`). -/
def find_variable (store : List FVar) (n : String) : Option FVar :=
  store.find? (fun v => v.name == n)

/-- C1: amended.  Under the claim's hypothesis `dm_factor - mv ≠ 0` AND the
additional hypothesis that the resolved `starch_per_point_divisor` is nonzero,
the Django calculator returns exactly the spec's eight-step pipeline, each
step using only raw inputs and earlier steps.  (Without the extra hypothesis
the claim fails: see `C1_divisor_zero_counterexample`.) -/
theorem calculator_matches_spec_pipeline (i : RawInputs) (snap : Snapshot)
    (hdm : getCoeff snap "dm_factor" 100 - i.mv ≠ 0)
    (hdiv : getCoeff snap "starch_per_point_divisor" 64 ≠ 0) :
    calculate_derived_values i snap = some (spec_pipeline i snap) := by
  simp only [calculate_derived_values, spec_pipeline]
  rw [if_neg hdm, if_neg hdiv]

/-- C1 witness: the theorem applied at the spec's concrete scenario with an
empty snapshot. -/
theorem calculator_matches_spec_pipeline_witness :
    calculate_derived_values ⟨100, 10, 5, 3, 50, 80⟩ [] =
      some (spec_pipeline ⟨100, 10, 5, 3, 50, 80⟩ []) :=
  calculator_matches_spec_pipeline ⟨100, 10, 5, 3, 50, 80⟩ []
    (by show (100 : ℚ) - 10 ≠ 0; norm_num)
    (by show (64 : ℚ) ≠ 0; norm_num)

/-- C1 counterexample: a snapshot that stores `starch_per_point_divisor = 0`
satisfies the claim's only hypothesis (`dm_factor - mv = 100 - 10 ≠ 0`), yet
the calculator does not return the eight derived values: the Python `Decimal`
division `maize_rate / 0` raises. -/
theorem C1_divisor_zero_counterexample :
    calculate_derived_values ⟨100, 10, 5, 3, 50, 80⟩
        [("starch_per_point_divisor", 0)] = none
  ∧ getCoeff [("starch_per_point_divisor", 0)] "dm_factor" 100 - 10 ≠ 0 := by
  have h1 : getCoeff [("starch_per_point_divisor", 0)] "dm_factor" 100 = 100 := rfl
  have h2 : getCoeff [("starch_per_point_divisor", 0)] "starch_per_point_divisor" 64 = 0 := rfl
  constructor
  · simp [calculate_derived_values, h1, h2]
  · rw [h1]; norm_num

/-- C2: calculating with an empty coefficient snapshot uses the hard-coded
fallbacks `dm_factor=100`, `oil_value_factor=60`, `net_factor=100`,
`starch_per_point_divisor=64`, `grain_factor=0.70`, and agrees with
calculating against a snapshot holding exactly those five values, for every
raw input tuple. -/
theorem empty_snapshot_uses_fallbacks (i : RawInputs) :
    calculate_derived_values i [] = calculate_derived_values i default_snapshot := by
  rfl

/-- Shared evaluation: the Django calculator at the spec's concrete scenario
(`rate=100, mv=10, oil=5, fiber=3, starch=50, maize_rate=80`, empty snapshot,
so every coefficient is at its fallback). -/
theorem concrete_scenario_eval :
    calculate_derived_values ⟨100, 10, 5, 3, 50, 80⟩ [] =
      some ⟨90, 1000/9, 300, 92, 5/4, 125/2, 35, 15⟩ := by
  have h1 : getCoeff [] "dm_factor" 100 = 100 := rfl
  have h2 : getCoeff [] "oil_value_factor" 60 = 60 := rfl
  have h3 : getCoeff [] "net_factor" 100 = 100 := rfl
  have h4 : getCoeff [] "starch_per_point_divisor" 64 = 64 := rfl
  have h5 : getCoeff [] "grain_factor" (7/10) = 7/10 := rfl
  simp only [calculate_derived_values, h1, h2, h3, h4, h5]
  rw [if_neg (by norm_num), if_neg (by norm_num)]
  simp only [Option.some.injEq, Derived.mk.injEq]
  norm_num

/-- C5: whenever the Django calculator returns a result, the stored `grain`
and `doc` satisfy `grain + doc = starch` exactly, because
`grain = starch * grain_factor` and `doc = starch - grain` (steps 7 and 8);
in particular this holds for every `starch` in `[0, 100]`. -/
theorem grain_plus_doc_eq_starch (i : RawInputs) (snap : Snapshot) (d : Derived)
    (h : calculate_derived_values i snap = some d) :
    d.grain + d.doc = i.starch := by
  simp only [calculate_derived_values] at h
  split_ifs at h
  simp only [Option.some.injEq] at h
  subst h
  ring

/-- C5 witness: the theorem applied at the concrete scenario, where
`grain + doc = 35 + 15 = 50 = starch`. -/
theorem grain_plus_doc_eq_starch_witness :
    (Derived.grain ⟨90, 1000/9, 300, 92, 5/4, 125/2, 35, 15⟩ : ℚ) +
      Derived.doc ⟨90, 1000/9, 300, 92, 5/4, 125/2, 35, 15⟩ = 50 :=
  grain_plus_doc_eq_starch ⟨100, 10, 5, 3, 50, 80⟩ [] _ concrete_scenario_eval

/-- C6: at `rate=100, mv=10, oil=5, fiber=3, starch=50, maize_rate=80` with
every coefficient at its default, the calculator yields (to the stored
2-decimal-place precision) `dm=90.00`, `rate_on_dm=111.11`, `oil_value=300.00`,
`net_wo_oil_fiber=92.00`, `starch_per_point=1.25`, `starch_value=62.50`,
`grain=35.00`, `doc=15.00`. -/
theorem concrete_scenario_rounded :
    (calculate_derived_values ⟨100, 10, 5, 3, 50, 80⟩ []).map (fun d =>
      (round2 d.dm, round2 d.rate_on_dm, round2 d.oil_value,
       round2 d.net_wo_oil_fiber, round2 d.starch_per_point,
       round2 d.starch_value, round2 d.grain, round2 d.doc)) =
    some (90, 11111/100, 300, 92, 5/4, 125/2, 35, 15) := by
  rw [concrete_scenario_eval]
  simp only [Option.map_some', Option.some.injEq, Prod.mk.injEq, round2]
  norm_num [round_eq]

/-! Step-effect lemmas: which column each FastAPI step writes and which it
leaves untouched. -/

/-- `fa_step_dm` leaves the raw `starch` column untouched. -/
theorem fa_step_dm_starch (r : FRecord) : (fa_step_dm r).starch = r.starch := by
  obtain ⟨rt, mv, o, fi, st, mr, dm, rd, ov, nt, sp, sv, g, dc⟩ := r
  simp only [fa_step_dm]
  cases mv <;> rfl

/-- `fa_step_rate_on_dm` leaves `starch` untouched. -/
theorem fa_step_rate_on_dm_starch (r : FRecord) :
    (fa_step_rate_on_dm r).starch = r.starch := by
  obtain ⟨rt, mv, o, fi, st, mr, dm, rd, ov, nt, sp, sv, g, dc⟩ := r
  cases rt <;> cases dm <;>
    simp [fa_step_rate_on_dm, apply_ite FRecord.starch]

/-- `fa_step_oil_value` leaves `starch` untouched. -/
theorem fa_step_oil_value_starch (c : ℚ) (r : FRecord) :
    (fa_step_oil_value c r).starch = r.starch := by
  obtain ⟨rt, mv, o, fi, st, mr, dm, rd, ov, nt, sp, sv, g, dc⟩ := r
  simp only [fa_step_oil_value]
  cases o <;> rfl

/-- `fa_step_net` leaves `starch` untouched. -/
theorem fa_step_net_starch (c : ℚ) (r : FRecord) :
    (fa_step_net c r).starch = r.starch := by
  obtain ⟨rt, mv, o, fi, st, mr, dm, rd, ov, nt, sp, sv, g, dc⟩ := r
  simp only [fa_step_net]
  cases rt <;> cases ov <;> cases fi <;> rfl

/-- `fa_step_starch_per_point` leaves `starch` untouched. -/
theorem fa_step_spp_starch (c : ℚ) (r : FRecord) :
    (fa_step_starch_per_point c r).starch = r.starch := by
  obtain ⟨rt, mv, o, fi, st, mr, dm, rd, ov, nt, sp, sv, g, dc⟩ := r
  cases st <;>
    simp [fa_step_starch_per_point, apply_ite FRecord.starch]

/-- `fa_step_grain` leaves `starch_value` untouched. -/
theorem fa_step_grain_starch_value (c : ℚ) (r : FRecord) :
    (fa_step_grain c r).starch_value = r.starch_value := by
  obtain ⟨rt, mv, o, fi, st, mr, dm, rd, ov, nt, sp, sv, g, dc⟩ := r
  simp only [fa_step_grain]
  cases sv <;> rfl

/-- `fa_step_doc` leaves `starch_value` untouched. -/
theorem fa_step_doc_starch_value (c : ℚ) (r : FRecord) :
    (fa_step_doc c r).starch_value = r.starch_value := by
  obtain ⟨rt, mv, o, fi, st, mr, dm, rd, ov, nt, sp, sv, g, dc⟩ := r
  simp only [fa_step_doc]
  cases sv <;> cases ov <;> rfl

/-- `fa_step_rate_on_dm` leaves `dm` untouched. -/
theorem fa_step_rate_on_dm_dm (r : FRecord) : (fa_step_rate_on_dm r).dm = r.dm := by
  obtain ⟨rt, mv, o, fi, st, mr, dm, rd, ov, nt, sp, sv, g, dc⟩ := r
  cases rt <;> cases dm <;>
    simp [fa_step_rate_on_dm, apply_ite FRecord.dm]

/-- `fa_step_oil_value` leaves `dm` untouched. -/
theorem fa_step_oil_value_dm (c : ℚ) (r : FRecord) :
    (fa_step_oil_value c r).dm = r.dm := by
  obtain ⟨rt, mv, o, fi, st, mr, dm, rd, ov, nt, sp, sv, g, dc⟩ := r
  simp only [fa_step_oil_value]
  cases o <;> rfl

/-- `fa_step_net` leaves `dm` untouched. -/
theorem fa_step_net_dm (c : ℚ) (r : FRecord) : (fa_step_net c r).dm = r.dm := by
  obtain ⟨rt, mv, o, fi, st, mr, dm, rd, ov, nt, sp, sv, g, dc⟩ := r
  simp only [fa_step_net]
  cases rt <;> cases ov <;> cases fi <;> rfl

/-- `fa_step_starch_per_point` leaves `dm` untouched. -/
theorem fa_step_spp_dm (c : ℚ) (r : FRecord) :
    (fa_step_starch_per_point c r).dm = r.dm := by
  obtain ⟨rt, mv, o, fi, st, mr, dm, rd, ov, nt, sp, sv, g, dc⟩ := r
  cases st <;>
    simp [fa_step_starch_per_point, apply_ite FRecord.dm]

/-- `fa_step_starch_value` leaves `dm` untouched. -/
theorem fa_step_sv_dm (r : FRecord) : (fa_step_starch_value r).dm = r.dm := by
  obtain ⟨rt, mv, o, fi, st, mr, dm, rd, ov, nt, sp, sv, g, dc⟩ := r
  simp only [fa_step_starch_value]
  cases st <;> cases sp <;> rfl

/-- `fa_step_grain` leaves `dm` untouched. -/
theorem fa_step_grain_dm (c : ℚ) (r : FRecord) : (fa_step_grain c r).dm = r.dm := by
  obtain ⟨rt, mv, o, fi, st, mr, dm, rd, ov, nt, sp, sv, g, dc⟩ := r
  simp only [fa_step_grain]
  cases sv <;> rfl

/-- `fa_step_doc` leaves `dm` untouched. -/
theorem fa_step_doc_dm (c : ℚ) (r : FRecord) : (fa_step_doc c r).dm = r.dm := by
  obtain ⟨rt, mv, o, fi, st, mr, dm, rd, ov, nt, sp, sv, g, dc⟩ := r
  simp only [fa_step_doc]
  cases sv <;> cases ov <;> rfl

/-- When `mv` is present, `fa_step_dm` sets `dm = 100 - mv` (the hard-coded
`100`, not `dm_factor`). -/
theorem fa_step_dm_sets (r : FRecord) (m : ℚ) (hm : r.mv = some m) :
    (fa_step_dm r).dm = some (100 - m) := by
  simp only [fa_step_dm, hm]

/-- When `starch` is present and positive, `fa_step_starch_per_point` sets
`starch_per_point = starch_per_point_factor / starch`. -/
theorem fa_step_spp_sets (c : ℚ) (r : FRecord) (s : ℚ)
    (hs : r.starch = some s) (hpos : 0 < s) :
    (fa_step_starch_per_point c r).starch_per_point = some (c / s) := by
  simp only [fa_step_starch_per_point, hs, if_pos hpos]

/-- When `starch` and `starch_per_point` are present, `fa_step_starch_value`
sets `starch_value = starch * starch_per_point`. -/
theorem fa_step_sv_sets (r : FRecord) (s p : ℚ)
    (hs : r.starch = some s) (hp : r.starch_per_point = some p) :
    (fa_step_starch_value r).starch_value = some (s * p) := by
  simp only [fa_step_starch_value, hs, hp]

/-- C3: evidence against the claim.  At `rate=100, mv=100` with `dm_factor`
at its default `100` (so `dm = 0`), the Django calculator does not complete:
the unguarded `rate / dm` raises `decimal.DivisionByZero`, which nothing in
the repository catches (no `CalculationError` type exists anywhere), so the
save crashes with an unhandled exception; the FastAPI variant instead
silently skips the step, leaving `rate_on_dm` NULL. -/
theorem dm_zero_is_unhandled :
    calculate_derived_values ⟨100, 100, 5, 3, 50, 80⟩ [] = none
  ∧ (fa_calculate_derived_values
      ⟨some 100, some 100, some 5, some 3, some 50, some 80,
       none, none, none, none, none, none, none, none⟩ []).rate_on_dm = none := by
  have h1 : getCoeff [] "dm_factor" 100 = 100 := rfl
  refine ⟨by simp [calculate_derived_values, h1], ?_⟩
  norm_num [fa_calculate_derived_values, getCoeff, fa_step_dm, fa_step_rate_on_dm,
    fa_step_oil_value, fa_step_net, fa_step_starch_per_point, fa_step_starch_value,
    fa_step_grain, fa_step_doc]

/-- C4 counterexample: the FastAPI calculator returns a partially-populated
result without any error.  On a fresh record with only `mv = 10` present, it
computes `dm = 90` but leaves `rate_on_dm` (and `starch_value`) unset —
neither "all eight derived values" nor a `CalculationError` (which does not
exist in the repository). -/
theorem fa_partial_result_counterexample :
    ((fa_calculate_derived_values ⟨none, some 10, none, none, none, none,
        none, none, none, none, none, none, none, none⟩ []).dm = some 90)
  ∧ ((fa_calculate_derived_values ⟨none, some 10, none, none, none, none,
        none, none, none, none, none, none, none, none⟩ []).rate_on_dm = none)
  ∧ ((fa_calculate_derived_values ⟨none, some 10, none, none, none, none,
        none, none, none, none, none, none, none, none⟩ []).starch_value = none) := by
  refine ⟨?_, ?_, ?_⟩ <;>
    norm_num [fa_calculate_derived_values, getCoeff, fa_step_dm, fa_step_rate_on_dm,
      fa_step_oil_value, fa_step_net, fa_step_starch_per_point, fa_step_starch_value,
      fa_step_grain, fa_step_doc]

/-- C4: amended.  The FastAPI calculator computes each derived column
independently, guarded on operand presence, so it can return partial results;
but on a fresh record with all six raw inputs present, `mv < 100` (so
`dm > 0`) and `starch > 0`, every one of the eight derived columns is
populated, for every coefficient snapshot. -/
theorem fa_full_inputs_all_populated (rt m o fi s mr : ℚ) (vars : Snapshot)
    (hm : m < 100) (hs : 0 < s) :
    let res := fa_calculate_derived_values
      ⟨some rt, some m, some o, some fi, some s, some mr,
       none, none, none, none, none, none, none, none⟩ vars
    res.dm.isSome ∧ res.rate_on_dm.isSome ∧ res.oil_value.isSome ∧
    res.net_wo_oil_fiber.isSome ∧ res.starch_per_point.isSome ∧
    res.starch_value.isSome ∧ res.grain.isSome ∧ res.doc.isSome := by
  have h1 : (0:ℚ) < 100 - m := by linarith
  simp [fa_calculate_derived_values, fa_step_dm, fa_step_rate_on_dm, fa_step_oil_value,
    fa_step_net, fa_step_starch_per_point, fa_step_starch_value, fa_step_grain,
    fa_step_doc, h1, hs]

/-- C4 witness: the amended theorem at the concrete scenario inputs. -/
theorem fa_full_inputs_all_populated_witness :
    let res := fa_calculate_derived_values
      ⟨some 100, some 10, some 5, some 3, some 50, some 80,
       none, none, none, none, none, none, none, none⟩ []
    res.dm.isSome ∧ res.rate_on_dm.isSome ∧ res.oil_value.isSome ∧
    res.net_wo_oil_fiber.isSome ∧ res.starch_per_point.isSome ∧
    res.starch_value.isSome ∧ res.grain.isSome ∧ res.doc.isSome :=
  fa_full_inputs_all_populated 100 10 5 3 50 80 [] (by norm_num) (by norm_num)

/-- C10: in the FastAPI calculator, whenever `starch` is present and positive,
the computed `starch_value` equals the `starch_per_point_factor` coefficient
itself (its snapshot value, or the fallback `1`), independent of `starch`:
`starch_per_point = factor / starch` and
`starch_value = starch * starch_per_point = factor` exactly. -/
theorem fa_starch_value_equals_factor (r : FRecord) (vars : Snapshot) (s : ℚ)
    (hs : r.starch = some s) (hpos : 0 < s) :
    (fa_calculate_derived_values r vars).starch_value =
      some (getCoeff vars "starch_per_point_factor" 1) := by
  have hne : s ≠ 0 := ne_of_gt hpos
  simp only [fa_calculate_derived_values]
  set sppf := getCoeff vars "starch_per_point_factor" 1 with hsppf
  set r4 := fa_step_net (getCoeff vars "net_wo_factor" 1)
    (fa_step_oil_value (getCoeff vars "oil_factor" 1)
      (fa_step_rate_on_dm (fa_step_dm r))) with hr4
  have h4s : r4.starch = some s := by
    rw [hr4, fa_step_net_starch, fa_step_oil_value_starch, fa_step_rate_on_dm_starch,
      fa_step_dm_starch, hs]
  set r5 := fa_step_starch_per_point sppf r4 with hr5
  have h5s : r5.starch = some s := by rw [hr5, fa_step_spp_starch]; exact h4s
  have h5p : r5.starch_per_point = some (sppf / s) := fa_step_spp_sets sppf r4 s h4s hpos
  rw [fa_step_doc_starch_value, fa_step_grain_starch_value,
    fa_step_sv_sets r5 s (sppf / s) h5s h5p, mul_comm, div_mul_cancel₀ sppf hne]

/-- C10 witness: the theorem at the concrete scenario record with an empty
snapshot, where the factor falls back to `1`. -/
theorem fa_starch_value_equals_factor_witness :
    (fa_calculate_derived_values
      ⟨some 100, some 10, some 5, some 3, some 50, some 80,
       none, none, none, none, none, none, none, none⟩ []).starch_value = some 1 :=
  fa_starch_value_equals_factor _ [] 50 rfl (by norm_num)

/-- C7: derived values are recomputed on every create and every update.
`CRUDPlantRecord.create` persists exactly the calculator's output on the
freshly-built record under the coefficient dictionary read at that save;
`CRUDPlantRecord.update` recomputes the updated record under the dictionary
read at that save; Django `save` persists raw and derived fields exactly as
the calculator produced them (or aborts on its exception); and the stored
`dm` of a created record is consistent with its raw `mv`. -/
theorem derived_recomputed_on_save (db : Db) (inp : RawCreate) (updated : FRecord)
    (m : ℚ) (hm : inp.mv = some m) :
    ((crud_create db inp).2 =
        fa_calculate_derived_values (mkPlantRecord inp)
          (formula_vars_dict db.formula_variables))
  ∧ ((crud_create db inp).1.records = db.records ++ [(crud_create db inp).2])
  ∧ (crud_update db updated =
        fa_calculate_derived_values updated (formula_vars_dict db.formula_variables))
  ∧ (∀ snap i, django_save snap i =
        (calculate_derived_values i snap).map fun d => (i, d))
  ∧ ((crud_create db inp).2.dm = some (100 - m)) := by
  refine ⟨rfl, rfl, rfl, ?_, ?_⟩
  · intro snap i
    simp only [django_save]
    cases calculate_derived_values i snap <;> rfl
  · show (fa_calculate_derived_values (mkPlantRecord inp) _).dm = some (100 - m)
    simp only [fa_calculate_derived_values]
    rw [fa_step_doc_dm, fa_step_grain_dm, fa_step_sv_dm, fa_step_spp_dm,
      fa_step_net_dm, fa_step_oil_value_dm, fa_step_rate_on_dm_dm]
    exact fa_step_dm_sets (mkPlantRecord inp) m hm

/-- C7 witness: a create on an empty database at the concrete scenario
payload stores `dm = 100 - 10 = 90`. -/
theorem derived_recomputed_on_save_witness :
    (crud_create ⟨[], []⟩
      ⟨some 100, some 10, some 5, some 3, some 50, some 80⟩).2.dm = some 90 := by
  have h := (derived_recomputed_on_save ⟨[], []⟩
    ⟨some 100, some 10, some 5, some 3, some 50, some 80⟩
    (mkPlantRecord ⟨some 100, some 10, some 5, some 3, some 50, some 80⟩)
    10 rfl).2.2.2.2
  rw [h]
  norm_num

/-- C8: evidence on the reset operation.  On a store holding `dm_factor`
(current value 95, default 100): the FastAPI reset endpoint applied to the
existing name yields the `TypeError` crash (value unchanged, no reset), the
absent-name branch does return not-found as claimed, and the Django
`reset_to_default` path does set `value = default_value` so a subsequent get
returns the default exactly. -/
theorem reset_endpoint_behavior :
    reset_variable [⟨"dm_factor", 95, 100⟩] "dm_factor" = ResetResult.typeError
  ∧ reset_variable [⟨"dm_factor", 95, 100⟩] "oil_value_factor" = ResetResult.notFound
  ∧ django_reset ⟨"dm_factor", 95, 100⟩ = ⟨"dm_factor", 100, 100⟩ :=
  ⟨rfl, rfl, rfl⟩

/-- C9 counterexample: the store seeded by `create_formula_variables.py` has
no coefficient named `oil_value_factor`, and its `grain_factor` default is
`1.2`, not `0.70`. -/
theorem seeded_store_counterexample :
    find_variable create_formula_variables "oil_value_factor" = none
  ∧ (find_variable create_formula_variables "grain_factor").map
      FVar.default_value = some (6/5)
  ∧ (6/5 : ℚ) ≠ 7/10 :=
  ⟨rfl, rfl, by norm_num⟩

/-- C9: amended.  The FastAPI seeding scripts (`create_formula_variables.py`,
`init_database.py`) populate `dm_factor=100`, `oil_factor=2.5`,
`net_wo_factor=1.5`, `starch_per_point_factor=100`, `grain_factor=1.2`,
`doc_factor=1.05`; the five coefficients the claim names, with values
`100, 60, 100, 64, 0.70`, are seeded only by `app/db/init_db.py`'s `init_db`,
which no startup path invokes. -/
theorem seeded_store_contents :
    create_formula_variables.map (fun v => (v.name, v.value, v.default_value)) =
      [("dm_factor", 100, 100), ("oil_factor", 5/2, 5/2), ("net_wo_factor", 3/2, 3/2),
       ("starch_per_point_factor", 100, 100), ("grain_factor", 6/5, 6/5),
       ("doc_factor", 21/20, 21/20)]
  ∧ init_db_default_variables.map (fun v => (v.name, v.value, v.default_value)) =
      [("dm_factor", 100, 100), ("oil_value_factor", 60, 60), ("net_factor", 100, 100),
       ("starch_per_point_divisor", 64, 64), ("grain_factor", 7/10, 7/10)] :=
  ⟨rfl, rfl⟩
